import Mathlib

/-!
Verification of the gaffer key/permission store and configuration loader.

The definitions below are a shallow embedding of the Python sources
src/gaffer/gafferd/keys.py and src/gaffer/gafferd.py.  Python values that
flow through the permission mapping (JSON booleans, strings, lists of
strings, dictionaries, bound methods) are modelled by the inductive
PyValue; Python exceptions are modelled by the error type PyErr together
with Except; Python dictionaries are modelled by association lists kept in
insertion order, which matches the observable iteration and membership
behaviour of the dictionaries used in the source.
-/

set_option autoImplicit false

/-- Python exceptions that the embedded code can raise.  The first four
constructors mirror the exception classes declared at the top of keys.py;
the remaining ones mirror built-in Python exceptions that the code can
raise at run time (TypeError from a bad containment test or a bad
os.path.join argument, KeyError from dict.pop on a missing key,
AttributeError from reading an attribute that does not exist, NameError
from evaluating an undefined global name, IndexError from deque.popleft on
an empty deque, ValueError from int() or getboolean() on bad text). -/
inductive PyErr where
  | unknownPermission
  | invalidKey
  | keyNotFound
  | keyConflict
  | typeError
  | keyError
  | attributeError
  | nameError
  | indexError
  | valueError
deriving DecidableEq, Repr

/-- Python values stored in a permissions mapping or reachable through
attribute lookup on a Key object: booleans, strings, JSON arrays of scope
strings, JSON objects, and bound methods. -/
inductive PyValue where
  | bool : Bool → PyValue
  | str : String → PyValue
  | strlist : List String → PyValue
  | dict : List (String × PyValue) → PyValue
  | method : PyValue

/-- Decide whether the character list n occurs as a contiguous run inside
the character list h; this is the semantics of the Python containment test
on strings. -/
def listIsInfix (n : List Char) : List Char → Bool
  | [] => n.isEmpty
  | c :: rest => n.isPrefixOf (c :: rest) || listIsInfix n rest

/-- Python containment test between two strings: needle in hay. -/
def strIn (needle hay : String) : Bool :=
  listIsInfix needle.data hay.data

/-- Python str.startswith: the first string is the prefix tested against
the second. -/
def pyStartsWith (pre s : String) : Bool :=
  pre.data.isPrefixOf s.data

/-- Characters of a string before its first dot. -/
def beforeDot : List Char → List Char
  | [] => []
  | c :: rest => if c == Char.ofNat 46 then [] else c :: beforeDot rest

/-- First element of the Python expression s.split on a dot separator: the
part of the string before the first dot, or the whole string when it has
no dot. -/
def splitDotHead (s : String) : String :=
  ⟨beforeDot s.data⟩

/-- Python truthiness of a PyValue, as used by conditions and by the
expression x or y.  Empty strings, empty lists and empty dicts are falsy;
bound methods are truthy. -/
def PyValue.truthy : PyValue → Bool
  | .bool b => b
  | .str s => s != ""
  | .strlist xs => !xs.isEmpty
  | .dict kvs => !kvs.isEmpty
  | .method => true

/-- Python containment test w in v on a PyValue.  Strings test substring
occurrence, lists test membership, dicts test key membership, and booleans
or bound methods raise TypeError, exactly as in CPython. -/
def PyValue.contains : PyValue → String → Except PyErr Bool
  | .str s, w => .ok (strIn w s)
  | .strlist xs, w => .ok (xs.contains w)
  | .dict kvs, w => .ok (kvs.any (fun kv => kv.1 == w))
  | .bool _, _ => .error .typeError
  | .method, _ => .error .typeError

/-- Evaluation of the Python expression permissions.get(name, None) or
braces-empty-dict, from Key.__init__ in keys.py: a missing or falsy entry
yields the empty dict, a truthy entry is kept as is. -/
def asPerm : Option PyValue → PyValue
  | none => .dict []
  | some v => if v.truthy then v else .dict []

/-- Model of the Key instance from keys.py.  The fields are exactly the
instance attributes assigned by Key.__init__: the raw permissions mapping,
the parsed manage, write and read entries, and the three wildcard flags. -/
structure Key where
  api_key : String
  label : String
  permissions : List (String × PyValue)
  manage : PyValue
  write : PyValue
  read : PyValue
  can_manage_all : Bool
  can_write_all : Bool
  can_read_all : Bool

/-- Embedding of Key.__init__ from keys.py lines 31 to 42.  Note two
faithful details: the read field is populated from the write entry of the
mapping (line 39 of the source reads permissions.get with the string
write, not read), and the containment test for the star wildcard can raise
TypeError when an entry is a boolean, so construction is fallible. -/
def Key.make (api_key label : String) (permissions : List (String × PyValue)) :
    Except PyErr Key :=
  match (asPerm (List.lookup "manage" permissions)).contains "*" with
  | .error e => .error e
  | .ok cma =>
    match (asPerm (List.lookup "write" permissions)).contains "*" with
    | .error e => .error e
    | .ok cwa =>
      match (asPerm (List.lookup "write" permissions)).contains "*" with
      | .error e => .error e
      | .ok cra =>
        .ok { api_key := api_key, label := label, permissions := permissions,
              manage := asPerm (List.lookup "manage" permissions),
              write := asPerm (List.lookup "write" permissions),
              read := asPerm (List.lookup "write" permissions),
              can_manage_all := cma, can_write_all := cwa, can_read_all := cra }

/-- Python attribute lookup on a Key instance: the instance attributes
assigned in Key.__init__ together with the methods defined on the class in
keys.py.  A name outside this table has no attribute, so hasattr is false
and getattr falls back to its default. -/
def Key.getAttr (k : Key) : String → Option PyValue
  | "api_key" => some (.str k.api_key)
  | "label" => some (.str k.label)
  | "permissions" => some (.dict k.permissions)
  | "manage" => some k.manage
  | "write" => some k.write
  | "read" => some k.read
  | "can_manage_all" => some (.bool k.can_manage_all)
  | "can_write_all" => some (.bool k.can_write_all)
  | "can_read_all" => some (.bool k.can_read_all)
  | "load" => some .method
  | "dump" => some .method
  | "is_superuser" => some .method
  | "can_create_key" => some .method
  | "can_create_user" => some .method
  | "can_manage" => some .method
  | "can_write" => some .method
  | "can_read" => some .method
  | "can" => some .method
  | _ => none

/-- Embedding of Key.is_superuser from keys.py lines 61 to 63: the truth
value of permissions.get with the string superuser and default False. -/
def Key.is_superuser (k : Key) : Bool :=
  ((List.lookup "superuser" k.permissions).getD (.bool false)).truthy

/-- Embedding of Key.can from keys.py lines 104 to 127.  The method first
requires hasattr(self, permission), raising UnknownPermission otherwise;
then it consults getattr of the name permission followed by the suffix
underscore-all with default False (note the instance fields are named
can_manage_all and so on, so for manage, write and read this getattr
always falls back to the default); then, when the scope contains a dot, it
tests the session part against the permission attribute; finally it tests
the scope verbatim.  Containment against a non-container attribute raises
TypeError, as in Python. -/
def Key.can (k : Key) (permission what : String) : Except PyErr Bool :=
  match k.getAttr permission with
  | none => .error .unknownPermission
  | some _ =>
    if ((k.getAttr (permission ++ "_all")).getD (.bool false)).truthy then
      .ok true
    else
      let perms := (k.getAttr permission).getD (.dict [])
      let sessionTest : Except PyErr Bool :=
        if strIn "." what then
          perms.contains (splitDotHead what)
        else .ok false
      match sessionTest with
      | .error e => .error e
      | .ok true => .ok true
      | .ok false =>
        match ((k.getAttr permission).getD (.dict [])).contains what with
        | .error e => .error e
        | .ok b => .ok b

/-- Embedding of Key.can_manage from keys.py lines 77 to 85. -/
def Key.can_manage (k : Key) (job_or_session : String) : Except PyErr Bool :=
  k.can "manage" job_or_session

/-- Embedding of Key.can_write from keys.py lines 87 to 93: first evaluate
can_manage on the same scope and return true when it is true, otherwise
evaluate the write permission; an exception propagates. -/
def Key.can_write (k : Key) (job_or_session : String) : Except PyErr Bool :=
  match k.can_manage job_or_session with
  | .error e => .error e
  | .ok true => .ok true
  | .ok false => k.can "write" job_or_session

/-- Embedding of Key.can_read from keys.py lines 95 to 102: first evaluate
can_write on the same scope and return true when it is true, otherwise
evaluate the read permission; an exception propagates. -/
def Key.can_read (k : Key) (job_or_session : String) : Except PyErr Bool :=
  match k.can_write job_or_session with
  | .error e => .error e
  | .ok true => .ok true
  | .ok false => k.can "read" job_or_session

/-- Embedding of Key.dump from keys.py lines 57 to 59. -/
def Key.dump (k : Key) : List (String × PyValue) :=
  [("key", .str k.api_key), ("label", .str k.label),
   ("permissions", .dict k.permissions)]

/-- Coercion of a PyValue expected to be a string, used when reading the
fields of a dumped key object. -/
def PyValue.asStr : PyValue → String
  | .str s => s
  | _ => ""

/-- Coercion of a PyValue expected to be a dict, used when reading the
permissions field of a dumped key object. -/
def PyValue.asDict : PyValue → List (String × PyValue)
  | .dict d => d
  | _ => []

/-- Embedding of the classmethod Key.load from keys.py lines 47 to 55:
raise InvalidKey when the object has no key entry, otherwise construct a
Key from the key, label and permissions entries with their defaults. -/
def Key.load (obj : List (String × PyValue)) : Except PyErr Key :=
  match List.lookup "key" obj with
  | none => .error .invalidKey
  | some v =>
      Key.make v.asStr
        (((List.lookup "label" obj).getD (.str "")).asStr)
        (((List.lookup "permissions" obj).getD (.dict [])).asDict)

/-- Row of the sqlite keys table from keys.py: key text primary key, data
text, parent text.  The data column holds the JSON serialization of a key
object; the model stores the parsed object directly. -/
structure SqlRow where
  key : String
  data : List (String × PyValue)
  parent : Option String

/-- Object returned to callers of the backend get_key: a plain dict, see
SqliteKeyBackend._make_key in keys.py lines 340 to 343. -/
def KeyRecord := List (String × PyValue)

/-- Update of a Python dict modelled as an association list: overwrite the
entry when the key is present, append it otherwise. -/
def pdictSet (d : List (String × PyValue)) (k : String) (v : PyValue) :
    List (String × PyValue) :=
  if (List.lookup k d).isSome then
    d.map (fun kv => if kv.1 == k then (k, v) else kv)
  else d ++ [(k, v)]

/-- Embedding of SqliteKeyBackend._make_key from keys.py lines 340 to 343:
parse the data column and set the key entry from the key column. -/
def make_key_row (r : SqlRow) : KeyRecord :=
  pdictSet r.data "key" (.str r.key)

/-- Embedding of SqliteKeyBackend.set_key from keys.py lines 297 to 308.
The INSERT hits the primary-key constraint when the api key already
exists; the except branch then evaluates the global name UserConflict,
which is defined nowhere in the module, so Python raises NameError (the
exception class KeyConflict declared at the top of keys.py for this very
purpose is never raised). -/
def SqliteKeyBackend.set_key (db : List SqlRow) (key : String)
    (data : List (String × PyValue)) (parent : Option String) :
    Except PyErr (List SqlRow) :=
  if db.any (fun r => r.key == key) then .error .nameError
  else .ok (db ++ [{ key := key, data := data, parent := parent }])

/-- Embedding of SqliteKeyBackend.get_key from keys.py lines 310 to 320:
SELECT the row whose key column equals the argument, raise KeyNotFound
when there is none, otherwise return the dict built by _make_key. -/
def SqliteKeyBackend.get_key (db : List SqlRow) (key : String) :
    Except PyErr KeyRecord :=
  match db.find? (fun r => r.key == key) with
  | none => .error .keyNotFound
  | some r => .ok (make_key_row r)

/-- Embedding of SqliteKeyBackend.delete_key from keys.py lines 322 to
325: DELETE FROM keys WHERE key equals the argument.  Only rows whose key
column matches are removed; rows whose parent column points at the deleted
key are untouched. -/
def SqliteKeyBackend.delete_key (db : List SqlRow) (key : String) :
    List SqlRow :=
  db.filter (fun r => !(r.key == key))

/-- Embedding of SqliteKeyBackend.has_key from keys.py lines 327 to 332:
true exactly when get_key does not raise KeyNotFound. -/
def SqliteKeyBackend.has_key (db : List SqlRow) (key : String) : Bool :=
  match SqliteKeyBackend.get_key db key with
  | .error _ => false
  | .ok _ => true

/-- Embedding of SqliteKeyBackend.all_subkeys from keys.py lines 334 to
338: the rows whose parent column equals the argument. -/
def SqliteKeyBackend.all_subkeys (db : List SqlRow) (key : String) :
    List KeyRecord :=
  (db.filter (fun r => r.parent == some key)).map make_key_row

/-- Modelled from the spec: the EventEmitter component (events.py is not
under src).  Section 4.1 of the spec lists its operations: subscribe,
unsubscribe, publish and close; these are therefore the attributes an
EventEmitter instance exposes. -/
def EventEmitter.attrs : List String :=
  ["subscribe", "unsubscribe", "publish", "close"]

/-- Mutable state of a KeyManager instance from keys.py: the _cache dict,
the _entries deque (front of the list is the left end of the deque), and
the state of the sqlite backend it owns.  The class assigns no conn
attribute in __init__, which matters for delete_key. -/
structure KeyManager where
  cache : List (String × KeyRecord)
  entries : List String
  db : List SqlRow

/-- Removal of the first occurrence of an element from a list, the
semantics of deque.remove in KeyManager._delete_entry. -/
def removeFirst : List String → String → List String
  | [], _ => []
  | x :: rest, k => if x == k then rest else x :: removeFirst rest k

/-- Embedding of KeyManager._delete_entry from keys.py lines 224 to 227:
when the key is cached, remove it from the entries deque and pop it from
the cache dict. -/
def KeyManager.delete_entry (m : KeyManager) (key : String) : KeyManager :=
  if (List.lookup key m.cache).isSome then
    { m with entries := removeFirst m.entries key,
             cache := m.cache.filter (fun kv => !(kv.1 == key)) }
  else m

/-- Embedding of KeyManager.get_key from keys.py lines 192 to 207.  A
cache hit returns the cached object.  On a miss the backend is read; when
the cache already holds at least 1000 entries the code pops the left end
of the entries deque and then calls self._cache.pop(key) on the argument
key, which is not in the cache on the miss path, so Python raises KeyError
(an empty deque would raise IndexError first); otherwise the object is
inserted into the cache and the key appended to the deque.  The function
returns the result together with the state the instance is left in. -/
def KeyManager.get_key (m : KeyManager) (key : String) :
    Except PyErr KeyRecord × KeyManager :=
  match List.lookup key m.cache with
  | some v => (.ok v, m)
  | none =>
    match SqliteKeyBackend.get_key m.db key with
    | .error e => (.error e, m)
    | .ok okey =>
      if 1000 ≤ m.cache.length then
        match m.entries with
        | [] => (.error .indexError, m)
        | _last :: rest => (.error .keyError, { m with entries := rest })
      else
        (.ok okey, { m with cache := m.cache ++ [(key, okey)],
                            entries := m.entries ++ [key] })

/-- Embedding of KeyManager.set_key from keys.py lines 188 to 190: insert
through the backend, then publish a set event.  The emitter call is
spelled publlish in the source, an attribute EventEmitter does not have,
so after a successful insert the method raises AttributeError; a backend
failure propagates unchanged. -/
def KeyManager.set_key (m : KeyManager) (key : String)
    (data : List (String × PyValue)) (parent : Option String) :
    Except PyErr Unit × KeyManager :=
  match SqliteKeyBackend.set_key m.db key data parent with
  | .error e => (.error e, m)
  | .ok db2 =>
    if EventEmitter.attrs.contains "publlish" then ((.ok ()), { m with db := db2 })
    else (.error .attributeError, { m with db := db2 })

/-- Embedding of KeyManager.delete_key from keys.py lines 209 to 219.  The
method first evicts the argument key from the cache via _delete_entry and
then evaluates self.conn; KeyManager.__init__ assigns no conn attribute,
so Python raises AttributeError at that point: neither the cache eviction
of sub keys nor the backend deletion nor the delete event is reached. -/
def KeyManager.delete_key (m : KeyManager) (key : String) :
    Except PyErr Unit × KeyManager :=
  let m1 := m.delete_entry key
  (.error .attributeError, m1)

/-- Embedding of KeyManager.has_key from keys.py lines 221 to 222. -/
def KeyManager.has_key (m : KeyManager) (key : String) : Bool :=
  SqliteKeyBackend.has_key m.db key

/-- One section of the parsed INI configuration as the ConfigParser hands
it to Server.get_config in gafferd.py: the section name and the option
items in file order, option names already transformed by the parser. -/
structure IniSection where
  name : String
  items : List (String × String)

/-- Update of a string-valued Python dict modelled as an association list:
overwrite the entry when the key is present, append it otherwise. -/
def sdictSet (d : List (String × String)) (k v : String) :
    List (String × String) :=
  if (List.lookup k d).isSome then
    d.map (fun kv => if kv.1 == k then (k, v) else kv)
  else d ++ [(k, v)]

/-- Process parameters of one process section, the keys of the
PROCESS_DEFAULTS dict in gafferd.py lines 27 to 36 with their default
values. -/
structure ProcParams where
  group : Option String
  args : Option String
  env : List (String × String)
  uid : Option String
  gid : Option String
  cwd : Option String
  detach : Bool
  numprocesses : Int
  start : Bool
deriving DecidableEq, Repr

/-- The PROCESS_DEFAULTS values from gafferd.py lines 27 to 36. -/
def process_defaults : ProcParams :=
  { group := none, args := none, env := [], uid := none, gid := none,
    cwd := none, detach := false, numprocesses := 1, start := true }

/-- Boolean conversion used by ConfigParser.getboolean: the usual INI
literals, case insensitive, anything else raises ValueError. -/
def py_parse_bool (s : String) : Except PyErr Bool :=
  let l := s.toLower
  if l == "1" || l == "yes" || l == "true" || l == "on" then .ok true
  else if l == "0" || l == "no" || l == "false" || l == "off" then .ok false
  else .error .valueError

/-- Integer conversion used by ConfigParser.getint: int() on the option
text, ValueError when it is not an integer literal. -/
def py_parse_int (s : String) : Except PyErr Int :=
  match s.trim.toInt? with
  | some n => .ok n
  | none => .error .valueError

/-- One iteration of the option loop of a process section,
Server.get_config in gafferd.py lines 130 to 151.  The branches appear in
source order; an option named env followed by a colon writes into the env
dict, which in the source is the single dict object shared by every
section (see get_config_processes below); unrecognized options are
ignored. -/
def apply_process_item (params : ProcParams) (env : List (String × String))
    (key val : String) : Except PyErr (ProcParams × List (String × String)) :=
  if key == "group" then .ok ({ params with group := some val }, env)
  else if key == "args" then .ok ({ params with args := some val }, env)
  else if pyStartsWith "env:" key then
    .ok (params, sdictSet env (key.drop 4) val)
  else if key == "uid" then .ok ({ params with uid := some val }, env)
  else if key == "gid" then .ok ({ params with gid := some val }, env)
  else if key == "cwd" then .ok ({ params with cwd := some val }, env)
  else if key == "detach" then
    match py_parse_bool val with
    | .error e => .error e
    | .ok b => .ok ({ params with detach := b }, env)
  else if key == "numprocesses" then
    match py_parse_int val with
    | .error e => .error e
    | .ok n => .ok ({ params with numprocesses := n }, env)
  else if key == "start" then
    match py_parse_bool val with
    | .error e => .error e
    | .ok b => .ok ({ params with start := b }, env)
  else .ok (params, env)

/-- Folding apply_process_item over the items of one section. -/
def apply_process_items (items : List (String × String)) (params : ProcParams)
    (env : List (String × String)) :
    Except PyErr (ProcParams × List (String × String)) :=
  match items with
  | [] => .ok (params, env)
  | (k, v) :: rest =>
    match apply_process_item params env k v with
    | .error e => .error e
    | .ok pe => apply_process_items rest pe.1 pe.2

/-- The section loop of Server.get_config in gafferd.py lines 105 and 125
to 152, restricted to process sections (endpoint sections do not touch the
process list or the env dict).  The env accumulator models the contents of
the dict stored under env in PROCESS_DEFAULTS: dict.copy() is shallow, so
every section sees and mutates that same dict object.  A section whose cmd
option is missing or empty contributes nothing. -/
def process_sections_loop (sections : List IniSection)
    (env : List (String × String)) (acc : List (String × String × ProcParams)) :
    Except PyErr (List (String × String × ProcParams) × List (String × String)) :=
  match sections with
  | [] => .ok (acc, env)
  | s :: rest =>
    if pyStartsWith "process:" s.name then
      let cmd := (List.lookup "cmd" s.items).getD ""
      if cmd == "" then process_sections_loop rest env acc
      else
        match apply_process_items s.items process_defaults env with
        | .error e => .error e
        | .ok pe =>
          process_sections_loop rest pe.2 (acc ++ [(s.name.drop 8, cmd, pe.1)])
    else process_sections_loop rest env acc

/-- The processes produced by Server.get_config.  Because the env entry of
every params dict is the one shared dict object, the env each caller
observes once get_config returns is the final contents of that dict: the
union of the env options of every process section, in processing order.
The model therefore runs the loop and then attaches the final env to every
produced parameter record. -/
def get_config_processes (sections : List IniSection) :
    Except PyErr (List (String × String × ProcParams)) :=
  match process_sections_loop sections [] [] with
  | .error e => .error e
  | .ok pe =>
    .ok (pe.1.map (fun t => (t.1, t.2.1, { t.2.2 with env := pe.2 })))

/-- Endpoint record handed to HttpEndpoint, with the ENDPOINT_DEFAULTS of
gafferd.py lines 22 to 25. -/
structure HttpEndpoint where
  uri : Option String
  backlog : Int
  ssl_options : Option (List (String × String))

/-- Python os.path.join applied to exactly one positional argument: a str
comes back unchanged, and an argument that is not path-like, such as a
list, raises TypeError. -/
def os_path_join1 : PyValue → Except PyErr String
  | .str s => .ok s
  | _ => .error .typeError

/-- Embedding of the default-endpoint branch of Server.get_config,
gafferd.py lines 154 to 157: when the endpoint list is empty the code
builds a path with os.path.join applied to the two-element list of the
temp directory and the name gaffer.sock, and wraps it in a unix URI. -/
def default_endpoints (tmpdir : String) (endpoints : List HttpEndpoint) :
    Except PyErr (List HttpEndpoint) :=
  if endpoints.isEmpty then
    match os_path_join1 (PyValue.strlist [tmpdir, "gaffer.sock"]) with
    | .error e => .error e
    | .ok path =>
      .ok [{ uri := some (String.append "unix:" path), backlog := 128,
             ssl_options := none }]
  else .ok endpoints

/-- Key built from the mapping with superuser true and nothing else, the
input of spec scenario 6. -/
def keySuper : Key :=
  { api_key := "super", label := "", permissions := [("superuser", PyValue.bool true)],
    manage := .dict [], write := .dict [], read := .dict [],
    can_manage_all := false, can_write_all := false, can_read_all := false }

/-- C1: the claim says a key whose permissions mapping has superuser true
answers true to can(permission, scope) for every permission in manage,
write, read and every scope.  The code does not: Key.can never consults
the superuser entry (is_superuser is a separate method that no permission
check calls), so with empty permission sets the query can(read, anything)
returns false even though is_superuser() returns true. -/
theorem superuser_ignored_by_can :
    Key.make "super" "" [("superuser", PyValue.bool true)] = Except.ok keySuper ∧
    keySuper.is_superuser = true ∧
    keySuper.can "read" "anything" = Except.ok false ∧
    keySuper.can "write" "anything" = Except.ok false ∧
    keySuper.can "manage" "anything" = Except.ok false :=
  ⟨rfl, rfl, rfl, rfl, rfl⟩

/-- Backend row for the parent key of the cascade scenario. -/
def rowRoot : SqlRow :=
  { key := "root", data := [("label", PyValue.str "r")], parent := none }

/-- Backend row for the child key of the cascade scenario. -/
def rowChild : SqlRow :=
  { key := "child", data := [("label", PyValue.str "c")], parent := some "root" }

/-- Key manager holding the parent and the child rows, cache empty. -/
def mgrTree : KeyManager :=
  { cache := [], entries := [], db := [rowRoot, rowChild] }

/-- C2: the claim says delete_key(p) removes every descendant from backend
and cache, making has_key(c) false and get_key(c) fail KeyNotFound.  The
code does not cascade: KeyManager.delete_key evaluates self.conn, an
attribute KeyManager never assigns, so it raises AttributeError before any
backend deletion; and even the backend SqliteKeyBackend.delete_key only
deletes the row whose key column matches, so after deleting root the child
row is still present, has_key(child) is true and get_key(child) succeeds. -/
theorem delete_key_does_not_cascade :
    (mgrTree.delete_key "root").1 = Except.error PyErr.attributeError ∧
    ((mgrTree.delete_key "root").2).has_key "child" = true ∧
    SqliteKeyBackend.has_key (SqliteKeyBackend.delete_key mgrTree.db "root") "child" = true ∧
    SqliteKeyBackend.get_key (SqliteKeyBackend.delete_key mgrTree.db "root") "child" =
      Except.ok (make_key_row rowChild) :=
  ⟨rfl, rfl, rfl, rfl⟩

/-- Key built from a mapping whose only entry is read with the scope web,
superuser absent, manage and write absent. -/
def keyReadWeb : Key :=
  { api_key := "k3", label := "", permissions := [("read", PyValue.strlist ["web"])],
    manage := .dict [], write := .dict [], read := .dict [],
    can_manage_all := false, can_write_all := false, can_read_all := false }

/-- C3: the claim says the effective read permission set is the read entry
of the mapping, so a scope listed in the read entry is granted.  In the
code Key.__init__ populates the read field from the write entry of the
mapping (keys.py line 39), so a key whose mapping carries read equal to
the singleton web ends up with an empty read field and can(read, web)
returns false. -/
theorem read_set_populated_from_write :
    Key.make "k3" "" [("read", PyValue.strlist ["web"])] = Except.ok keyReadWeb ∧
    keyReadWeb.read = PyValue.dict [] ∧
    keyReadWeb.can "read" "web" = Except.ok false :=
  ⟨rfl, rfl, rfl⟩

/-- C4: permission implication.  The implication chain of the spec is
implemented by the request methods can_write and can_read of keys.py: a
write request first evaluates can_manage on the same scope and a read
request first evaluates can_write, so a granted manage query forces a
granted write query and a granted write query forces a granted read
query, for every key and every scope. -/
theorem can_permission_implication (k : Key) (s : String) :
    (k.can_manage s = Except.ok true → k.can_write s = Except.ok true) ∧
    (k.can_write s = Except.ok true → k.can_read s = Except.ok true) := by
  constructor
  · intro h
    unfold Key.can_write
    rw [h]
  · intro h
    unfold Key.can_read
    rw [h]

/-- Key whose manage entry holds the session web, used to instantiate the
implication chain. -/
def keyManageWeb : Key :=
  { api_key := "kw", label := "", permissions := [("manage", PyValue.strlist ["web"])],
    manage := PyValue.strlist ["web"], write := .dict [], read := .dict [],
    can_manage_all := false, can_write_all := false, can_read_all := false }

/-- Witness for C4 at a concrete key and scope: manage on the session web
is granted, hence write and read on the job web.nginx are granted. -/
theorem can_permission_implication_witness :
    keyManageWeb.can_write "web.nginx" = Except.ok true ∧
    keyManageWeb.can_read "web.nginx" = Except.ok true := by
  have h1 : keyManageWeb.can_manage "web.nginx" = Except.ok true := rfl
  have h2 := (can_permission_implication keyManageWeb "web.nginx").1 h1
  exact ⟨h2, (can_permission_implication keyManageWeb "web.nginx").2 h2⟩

/-- Lookup misses every entry of a replicated association list whose key
differs from the looked-up key. -/
theorem lookup_replicate_none (k a : String) (v : KeyRecord) (n : Nat)
    (h : (k == a) = false) :
    List.lookup k (List.replicate n (a, v)) = none := by
  induction n with
  | zero => rfl
  | succ m ih => simp [List.replicate_succ, List.lookup, h, ih]

/-- C5: the claim says that with the cache at its capacity of 1000 a cold
get_key evicts the least-recently-used entry and inserts the new one.  In
the code the eviction branch pops the left end of the entries deque but
then calls self._cache.pop with the requested key, which on the miss path
is not in the cache, so the call raises KeyError: the least-recently-used
entry stays in the cache dict, nothing is inserted, and the caller sees an
exception; only the deque lost its oldest element. -/
theorem get_key_full_cache_keyerror (m : KeyManager) (key : String)
    (r : KeyRecord) (e0 : String) (rest : List String)
    (hmiss : List.lookup key m.cache = none)
    (hback : SqliteKeyBackend.get_key m.db key = Except.ok r)
    (hfull : 1000 ≤ m.cache.length)
    (hent : m.entries = e0 :: rest) :
    m.get_key key = (Except.error PyErr.keyError, { m with entries := rest }) := by
  unfold KeyManager.get_key
  rw [hmiss, hback, hent]
  simp [hfull]

/-- Record returned by the backend for the row with key b. -/
def recB : KeyRecord :=
  make_key_row { key := "b", data := [("label", PyValue.str "x")], parent := none }

/-- Key manager whose cache is at the capacity of 1000 entries and whose
backend holds the not-yet-cached key b. -/
def mgrFull : KeyManager :=
  { cache := List.replicate 1000 ("a", recB), entries := ["a"],
    db := [{ key := "b", data := [("label", PyValue.str "x")], parent := none }] }

/-- Witness for C5: on the full cache a get_key of the cold key b raises
KeyError and only the deque shrinks. -/
theorem get_key_full_cache_keyerror_witness :
    mgrFull.get_key "b" = (Except.error PyErr.keyError, { mgrFull with entries := [] }) :=
  get_key_full_cache_keyerror mgrFull "b" recB "a" []
    (lookup_replicate_none "b" "a" recB 1000 rfl) rfl
    (by
      have hc : mgrFull.cache.length = 1000 := by
        rw [show mgrFull.cache = List.replicate 1000 ("a", recB) from rfl]
        simp only [List.length_replicate]
      exact hc.ge) rfl

/-- C6: the claim says set_key fails with KeyConflict exactly when the api
key already exists and succeeds on a fresh one.  In the code the conflict
branch of SqliteKeyBackend.set_key raises the undefined global name
UserConflict, so the caller sees NameError, never the KeyConflict class
declared for this purpose; a fresh key is inserted by the backend, but the
KeyManager.set_key wrapper then calls the nonexistent emitter attribute
publlish and raises AttributeError even though the row was stored. -/
theorem set_key_conflict_raises_nameerror :
    SqliteKeyBackend.set_key [] "k" [("label", PyValue.str "d")] none =
      Except.ok [{ key := "k", data := [("label", PyValue.str "d")], parent := none }] ∧
    SqliteKeyBackend.set_key [{ key := "k", data := [("label", PyValue.str "d")], parent := none }]
        "k" [("label", PyValue.str "e")] none = Except.error PyErr.nameError ∧
    (KeyManager.set_key { cache := [], entries := [], db := [] } "k"
        [("label", PyValue.str "d")] none).1 = Except.error PyErr.attributeError ∧
    ((KeyManager.set_key { cache := [], entries := [], db := [] } "k"
        [("label", PyValue.str "d")] none).2).db =
      [{ key := "k", data := [("label", PyValue.str "d")], parent := none }] :=
  ⟨rfl, rfl, rfl, rfl⟩

/-- Key with empty permissions mapping and the label lbl, an input on
which can is probed with attribute names outside manage, write, read. -/
def keyPlain : Key :=
  { api_key := "k7", label := "lbl", permissions := [],
    manage := .dict [], write := .dict [], read := .dict [],
    can_manage_all := false, can_write_all := false, can_read_all := false }

/-- Counterexample for C7: the permission name label lies outside manage,
write, read, yet can(label, x) does not raise UnknownPermission, because
hasattr(self, label) is true; the call runs the containment tests against
the label string and returns false. -/
theorem can_label_no_unknown_permission :
    keyPlain.can "label" "x" = Except.ok false ∧
    keyPlain.can "label" "x" ≠ Except.error PyErr.unknownPermission := by
  constructor
  · rfl
  · intro h
    exact Except.noConfusion
      ((Eq.symm (rfl : keyPlain.can "label" "x" = Except.ok false)).trans h)

/-- C7 as amended: can(p, scope) raises UnknownPermission exactly for
permission names that are not attributes of the Key instance; every name
outside the attribute table of the class raises, for every key and every
scope. -/
theorem can_unknown_attribute_raises (k : Key) (p s : String)
    (h : k.getAttr p = none) :
    k.can p s = Except.error PyErr.unknownPermission := by
  unfold Key.can
  rw [h]

/-- Witness for the amended C7 at the name delete, which is not an
attribute of Key. -/
theorem can_unknown_attribute_raises_witness :
    keyPlain.can "delete" "x" = Except.error PyErr.unknownPermission :=
  can_unknown_attribute_raises keyPlain "delete" "x" rfl

/-- Process section a with one env option. -/
def sectionA : IniSection :=
  { name := "process:a", items := [("cmd", "x"), ("env:foo", "1")] }

/-- Process section b with one env option of its own. -/
def sectionB : IniSection :=
  { name := "process:b", items := [("cmd", "y"), ("env:bar", "2")] }

/-- C8: the claim says the env parameter produced for section b contains
exactly the env options of section b and none of those declared only in
section a.  Because PROCESS_DEFAULTS.copy() is shallow, every section
writes into the one shared env dict, so the env handed out for b contains
the entry foo declared only in a (and the env for a contains bar from b). -/
theorem env_leaks_across_process_sections :
    get_config_processes [sectionA, sectionB] = Except.ok
      [("a", "x", { process_defaults with env := [("foo", "1"), ("bar", "2")] }),
       ("b", "y", { process_defaults with env := [("foo", "1"), ("bar", "2")] })] :=
  rfl

/-- C9: the claim says that with no endpoint declared, get_config returns
one default endpoint bound to a unix socket at the join of the temp
directory with gaffer.sock.  The code calls os.path.join with a single
list argument, which raises TypeError, so no default endpoint is ever
produced, whatever the temp directory is. -/
theorem default_endpoint_join_typeerror (tmpdir : String) :
    default_endpoints tmpdir [] = Except.error PyErr.typeError :=
  rfl

/-- Fields of a key constructed by Key.make are the constructor
arguments. -/
theorem Key.make_fields (a l : String) (p : List (String × PyValue)) (k : Key)
    (h : Key.make a l p = Except.ok k) :
    k.api_key = a ∧ k.label = l ∧ k.permissions = p := by
  unfold Key.make at h
  cases h1 : (asPerm (List.lookup "manage" p)).contains "*" with
  | error e1 =>
    rw [h1] at h
    simp at h
  | ok b1 =>
    rw [h1] at h
    simp only [] at h
    cases h2 : (asPerm (List.lookup "write" p)).contains "*" with
    | error e2 =>
      rw [h2] at h
      simp at h
    | ok b2 =>
      rw [h2] at h
      simp only [Except.ok.injEq] at h
      subst h
      exact ⟨rfl, rfl, rfl⟩

/-- C10: dump and load round-trip.  For every key constructed by
Key.__init__ from an api key, a label and a permissions mapping, loading
the dumped object does not raise InvalidKey and rebuilds the very same
key: dump always writes the key entry load looks for, and load feeds the
stored api key, label and permissions back into the constructor. -/
theorem load_dump_roundtrip (a l : String) (p : List (String × PyValue)) (k : Key)
    (h : Key.make a l p = Except.ok k) :
    Key.load (Key.dump k) = Except.ok k := by
  obtain ⟨h1, h2, h3⟩ := Key.make_fields a l p k h
  have hload : Key.load (Key.dump k) = Key.make k.api_key k.label k.permissions := rfl
  rw [hload, h1, h2, h3]
  exact h

/-- Permissions mapping with a write entry, for the round-trip witness. -/
def permsW : List (String × PyValue) := [("write", PyValue.strlist ["web"])]

/-- The key Key.make builds from the mapping permsW. -/
def keyW : Key :=
  { api_key := "kw0", label := "l", permissions := permsW,
    manage := .dict [], write := PyValue.strlist ["web"], read := PyValue.strlist ["web"],
    can_manage_all := false, can_write_all := false, can_read_all := false }

/-- Witness for C10 at a concrete key. -/
theorem load_dump_roundtrip_witness :
    Key.load (Key.dump keyW) = Except.ok keyW :=
  load_dump_roundtrip "kw0" "l" permsW keyW rfl
